import Mathlib

/-!
Verification of the ggj22-kiwi puzzle game (Rust sources under `src/`).

The development shallowly embeds the data model and the operations of
`src/vecmath.rs`, `src/level.rs` and `src/game.rs` as executable Lean
definitions, and proves the frozen claims about them.  Machine integers
(`i32`) are modelled as `Int`: none of the embedded operations get anywhere
near the `i32` range, and the source performs no wrapping arithmetic.
`usize` indices are modelled as `Nat` via `Int.toNat` at the bounds-checked
conversion points, exactly where the source casts `as usize` after a
`contains` check.  Terminal size queries (`buffer_size()`), which the spec
treats as an external boundary, are passed in as an explicit `size`
parameter.
-/

/-- `CellColor` from `src/level.rs`. -/
inductive CellColor where
  | White
  | Black
  | LightGray
  | DarkGray
  deriving DecidableEq, Repr

/-- `Cell` from `src/level.rs`. -/
structure Cell where
  letter : Char
  background : CellColor
  foreground : CellColor
  deriving DecidableEq, Repr

/-- `Cell::empty` from `src/level.rs`: the glyph is the null sentinel or a space. -/
def Cell.empty (c : Cell) : Prop := c.letter = Char.ofNat 0 ∨ c.letter = ' '

instance (c : Cell) : Decidable c.empty := by unfold Cell.empty; infer_instance

/-- The shared `EMPTY_CELL` static from `src/level.rs`. -/
def EMPTY_CELL : Cell :=
  { letter := Char.ofNat 0, background := CellColor.Black, foreground := CellColor.White }

/-- `Cell::make_empty` from `src/level.rs`. -/
def Cell.make_empty : Cell := EMPTY_CELL

/-- `V2` from `src/vecmath.rs`. -/
structure V2 where
  x : Int
  y : Int
  deriving DecidableEq, Repr

/-- `V2::make`. -/
def V2.make (x y : Int) : V2 := { x := x, y := y }

/-- `impl Add for V2`. -/
instance : Add V2 := ⟨fun a b => { x := a.x + b.x, y := a.y + b.y }⟩

/-- `impl Sub for V2`. -/
instance : Sub V2 := ⟨fun a b => { x := a.x - b.x, y := a.y - b.y }⟩

theorem V2.add_def (a b : V2) : a + b = { x := a.x + b.x, y := a.y + b.y } := rfl

theorem V2.sub_def (a b : V2) : a - b = { x := a.x - b.x, y := a.y - b.y } := rfl

/-- `Rectangle` from `src/vecmath.rs`. -/
structure Rectangle where
  pos : V2
  size : V2
  deriving DecidableEq, Repr

namespace Rectangle

/-- `Rectangle::left`. -/
def left (r : Rectangle) : Int := r.pos.x

/-- `Rectangle::right`. -/
def right (r : Rectangle) : Int := r.pos.x + r.size.x - 1

/-- `Rectangle::top`. -/
def top (r : Rectangle) : Int := r.pos.y

/-- `Rectangle::bottom`. -/
def bottom (r : Rectangle) : Int := r.pos.y + r.size.y - 1

/-- `Rectangle::grow`. -/
def grow (r : Rectangle) (size : Int) : Rectangle :=
  { pos := r.pos - V2.make size size,
    size := r.size + V2.make (2 * size) (2 * size) }

/-- `Rectangle::width`. -/
def width (r : Rectangle) : Int := r.size.x

/-- `Rectangle::height`. -/
def height (r : Rectangle) : Int := r.size.y

/-- `Rectangle::contains`. -/
def contains (r : Rectangle) (p : V2) : Prop :=
  r.left ≤ p.x ∧ p.x ≤ r.right ∧ r.top ≤ p.y ∧ p.y ≤ r.bottom

instance (r : Rectangle) (p : V2) : Decidable (r.contains p) := by
  unfold contains; infer_instance

/-- `Rectangle::normalized` from `src/vecmath.rs`, translated statement by
statement: each axis whose size is non-positive is flipped to the minimum
corner, the other axis is left alone. -/
def normalized (r : Rectangle) : Rectangle :=
  if 0 < r.size.x ∧ 0 < r.size.y then r
  else
    let r2 := r
    let r2 := if r2.size.x ≤ 0 then
        { r2 with pos := { r2.pos with x := r.right },
                  size := { r2.size with x := r.left - r.right + 1 } }
      else r2
    let r2 := if r2.size.y ≤ 0 then
        { r2 with pos := { r2.pos with y := r2.bottom },
                  size := { r2.size with y := r2.top - r2.bottom + 1 } }
      else r2
    r2

end Rectangle

/-- Both size components of a normalized rectangle are strictly positive. -/
theorem Rectangle.normalized_size_pos (r : Rectangle) :
    0 < r.normalized.size.x ∧ 0 < r.normalized.size.y := by
  obtain ⟨⟨px, py⟩, ⟨sx, sy⟩⟩ := r
  simp only [normalized, right, left, top, bottom]
  split_ifs <;> simp_all <;> omega

/-- C8: for every rectangle, including those with zero or negative size
components, `normalized` is idempotent and yields strictly positive width
and height (`Rectangle::normalized`, `src/vecmath.rs`). -/
theorem c8_normalized_idempotent_and_positive (r : Rectangle) :
    r.normalized.normalized = r.normalized ∧
      0 < r.normalized.width ∧ 0 < r.normalized.height := by
  refine ⟨?_, r.normalized_size_pos⟩
  have h := r.normalized_size_pos
  rw [Rectangle.normalized, if_pos h]

/-- `Trigger` from `src/level.rs`: a named point of interest. -/
structure Trigger where
  pos : V2
  id : String
  deriving DecidableEq, Repr

/-- `Level` from `src/level.rs`: the tile grid.  `data` is the row-major
cell matrix (`Vec<Vec<Cell>>`, indexed `data[y][x]`). -/
structure Level where
  width : Int
  height : Int
  p0 : V2
  triggers : List Trigger
  data : List (List Cell)
  deriving DecidableEq, Repr

namespace Level

/-- `Level::new`: a `width × height` grid of empty cells with start point
`(2,2)` and no triggers.  The Rust `as usize` casts are modelled with
`Int.toNat` (the program only ever calls this with positive sizes). -/
def new (width height : Int) : Level :=
  { data := List.replicate height.toNat (List.replicate width.toNat Cell.make_empty),
    width := width,
    height := height,
    p0 := V2.make 2 2,
    triggers := [] }

/-- `Level::size`. -/
def size (l : Level) : V2 := V2.make l.width l.height

/-- `Level::contains`. -/
def contains (l : Level) (pos : V2) : Prop :=
  0 ≤ pos.x ∧ pos.x < l.width ∧ 0 ≤ pos.y ∧ pos.y < l.height

instance (l : Level) (p : V2) : Decidable (l.contains p) := by
  unfold contains; infer_instance

/-- `Level::set`: bounds-checked write; out-of-bounds writes are dropped. -/
def set (l : Level) (pos : V2) (value : Cell) : Level :=
  if l.contains pos then
    { l with
      data := l.data.set pos.y.toNat ((l.data.getD pos.y.toNat []).set pos.x.toNat value) }
  else l

/-- `Level::bounds`. -/
def bounds (l : Level) : Rectangle :=
  { pos := V2.make 0 0, size := l.size }

/-- `impl Index<V2> for Level`: in-bounds reads index the matrix,
out-of-bounds reads return the shared `EMPTY_CELL`. -/
def get (l : Level) (idx : V2) : Cell :=
  if l.contains idx then
    (l.data.getD idx.y.toNat []).getD idx.x.toNat EMPTY_CELL
  else EMPTY_CELL

/-- Well-formed representation: the matrix has exactly `height` rows of
exactly `width` cells.  `Level::new`, the loader's schema and the editor's
`resize` all establish this; `Level::set` preserves it. -/
def WF (l : Level) : Prop :=
  l.data.length = l.height.toNat ∧ ∀ row ∈ l.data, row.length = l.width.toNat

instance (l : Level) : Decidable l.WF := by unfold WF; infer_instance

end Level

/-! Helper lemmas about `List.set`/`List.getD`, used for the grid
round-trip and frame reasoning. -/

theorem getD_set_self {α : Type} :
    ∀ (xs : List α) (i : Nat) (a d : α), i < xs.length → (xs.set i a).getD i d = a := by
  intro xs
  induction xs with
  | nil => intro i a d h; simp at h
  | cons x xs ih =>
    intro i a d h
    cases i with
    | zero => rfl
    | succ n => simpa using ih n a d (by simpa using h)

theorem getD_set_other {α : Type} :
    ∀ (xs : List α) (i j : Nat) (a d : α), i ≠ j → (xs.set i a).getD j d = xs.getD j d := by
  intro xs
  induction xs with
  | nil => intro i j a d _; simp [List.set]
  | cons x xs ih =>
    intro i j a d h
    cases i with
    | zero =>
      cases j with
      | zero => exact absurd rfl h
      | succ m => rfl
    | succ n =>
      cases j with
      | zero => rfl
      | succ m => simpa using ih n m a d (fun e => h (by omega))

theorem set_out_of_range {α : Type} :
    ∀ (xs : List α) (i : Nat) (a : α), xs.length ≤ i → xs.set i a = xs := by
  intro xs
  induction xs with
  | nil => intro i a _; simp
  | cons x xs ih =>
    intro i a h
    cases i with
    | zero => simp at h
    | succ n => simpa using ih n a (by simpa using h)

theorem getD_mem {α : Type} :
    ∀ (xs : List α) (i : Nat) (d : α), i < xs.length → xs.getD i d ∈ xs := by
  intro xs
  induction xs with
  | nil => intro i d h; simp at h
  | cons x xs ih =>
    intro i d h
    cases i with
    | zero => simp [List.getD]
    | succ n =>
      have := ih n d (by simpa using h)
      simpa using Or.inr this

theorem mem_of_mem_set {α : Type} :
    ∀ (xs : List α) (i : Nat) (a b : α), b ∈ xs.set i a → b ∈ xs ∨ b = a := by
  intro xs
  induction xs with
  | nil => intro i a b h; simp [List.set] at h
  | cons x xs ih =>
    intro i a b h
    cases i with
    | zero =>
      rcases (by simpa using h : b = a ∨ b ∈ xs) with h1 | h1
      · exact Or.inr h1
      · exact Or.inl (by simp [h1])
    | succ n =>
      rcases (by simpa using h : b = x ∨ b ∈ xs.set n a) with h1 | h1
      · exact Or.inl (by simp [h1])
      · rcases ih n a b h1 with h2 | h2
        · exact Or.inl (by simp [h2])
        · exact Or.inr h2

namespace Level

theorem set_width (l : Level) (p : V2) (c : Cell) : (l.set p c).width = l.width := by
  unfold set; split <;> rfl

theorem set_height (l : Level) (p : V2) (c : Cell) : (l.set p c).height = l.height := by
  unfold set; split <;> rfl

theorem set_p0 (l : Level) (p : V2) (c : Cell) : (l.set p c).p0 = l.p0 := by
  unfold set; split <;> rfl

theorem set_triggers (l : Level) (p : V2) (c : Cell) : (l.set p c).triggers = l.triggers := by
  unfold set; split <;> rfl

theorem contains_set (l : Level) (p q : V2) (c : Cell) :
    (l.set p c).contains q ↔ l.contains q := by
  unfold contains
  rw [set_width, set_height]

/-- Unfolding equation for an in-bounds `Level::set`. -/
theorem set_eq_of_contains (l : Level) (p : V2) (c : Cell) (hc : l.contains p) :
    l.set p c =
      { l with
        data := l.data.set p.y.toNat ((l.data.getD p.y.toNat []).set p.x.toNat c) } := by
  unfold Level.set
  rw [if_pos hc]

/-- `Level::set` is the identity out of bounds. -/
theorem set_eq_of_not_contains (l : Level) (p : V2) (c : Cell) (hc : ¬ l.contains p) :
    l.set p c = l := by
  unfold Level.set
  rw [if_neg hc]

/-- `Level::set` preserves well-formedness. -/
theorem WF.set (hWF : Level.WF l) (p : V2) (c : Cell) : (l.set p c).WF := by
  obtain ⟨hlen, hrows⟩ := hWF
  by_cases hc : l.contains p
  · rw [l.set_eq_of_contains p c hc]
    refine ⟨by simpa using hlen, ?_⟩
    intro row hrow
    rcases mem_of_mem_set _ _ _ _ hrow with h | h
    · exact hrows row h
    · subst h
      obtain ⟨h0x, hx, h0y, hy⟩ := hc
      have hylt : p.y.toNat < l.data.length := by omega
      have hmem : l.data.getD p.y.toNat [] ∈ l.data := getD_mem _ _ _ hylt
      simpa using hrows _ hmem
  · rw [l.set_eq_of_not_contains p c hc]
    exact ⟨hlen, hrows⟩

/-- Writing in bounds and reading back the same position yields the
written cell, for well-formed levels. -/
theorem get_set_self (l : Level) (p : V2) (c : Cell) (hWF : l.WF)
    (hp : l.contains p) : (l.set p c).get p = c := by
  obtain ⟨hlen, hrows⟩ := hWF
  have hylt : p.y.toNat < l.data.length := by
    obtain ⟨h0x, hx, h0y, hy⟩ := hp; omega
  have hrowlen : (l.data.getD p.y.toNat []).length = l.width.toNat :=
    hrows _ (getD_mem _ _ _ hylt)
  have hxlt : p.x.toNat < (l.data.getD p.y.toNat []).length := by
    obtain ⟨h0x, hx, h0y, hy⟩ := hp; omega
  rw [l.set_eq_of_contains p c hp]
  unfold Level.get
  rw [if_pos (by exact hp)]
  simp only []
  rw [getD_set_self _ _ _ _ (by simpa using hylt)]
  exact getD_set_self _ _ _ _ hxlt

/-- Writing one position never changes the cell read at a different
position. -/
theorem get_set_other (l : Level) (p q : V2) (c : Cell) (hpq : p ≠ q) :
    (l.set p c).get q = l.get q := by
  by_cases hp : l.contains p
  · rw [l.set_eq_of_contains p c hp]
    unfold Level.get
    by_cases hq : l.contains q
    · rw [if_pos (by exact hq), if_pos hq]
      simp only []
      obtain ⟨hp0x, hpx, hp0y, hpy⟩ := hp
      obtain ⟨hq0x, hqx, hq0y, hqy⟩ := hq
      by_cases hyy : p.y.toNat = q.y.toNat
      · have hxx : p.x.toNat ≠ q.x.toNat := by
          intro hxe
          apply hpq
          have hyval : p.y = q.y := by omega
          have hxval : p.x = q.x := by omega
          cases p; cases q; simp_all
        by_cases hylt : q.y.toNat < l.data.length
        · rw [← hyy] at hylt ⊢
          rw [getD_set_self _ _ _ _ (by simpa using hylt)]
          exact getD_set_other _ _ _ _ _ hxx
        · rw [← hyy] at hylt
          rw [set_out_of_range _ _ _ (by omega)]
      · rw [getD_set_other _ _ _ _ _ hyy]
    · rw [if_neg (by exact hq), if_neg hq]
  · rw [l.set_eq_of_not_contains p c hp]

/-- Reading the written position after an in-range write either returns the
written cell or (when the backing rows are shorter than the declared
bounds) leaves the read unchanged.  Needs no well-formedness. -/
theorem get_set_self_cases (l : Level) (p : V2) (c : Cell) :
    (l.set p c).get p = c ∨ (l.set p c).get p = l.get p := by
  by_cases hp : l.contains p
  · rw [l.set_eq_of_contains p c hp]
    unfold Level.get
    rw [if_pos (by exact hp), if_pos hp]
    simp only []
    by_cases hylt : p.y.toNat < l.data.length
    · rw [getD_set_self _ _ _ _ (by simpa using hylt)]
      by_cases hxlt : p.x.toNat < (l.data.getD p.y.toNat []).length
      · exact Or.inl (getD_set_self _ _ _ _ hxlt)
      · rw [set_out_of_range _ _ _ (by omega)]
        exact Or.inr rfl
    · rw [set_out_of_range _ _ _ (by omega)]
      exact Or.inr rfl
  · rw [l.set_eq_of_not_contains p c hp]
    exact Or.inr rfl

end Level

/-- C5: grid access round-trip (`Level::set`, `impl Index<V2> for Level`,
`src/level.rs`).  For every in-bounds position of a well-formed grid,
`set` then read yields the written cell; for every out-of-bounds position,
`set` is a no-op on the whole grid and the read returns the shared
immutable empty cell. -/
theorem c5_grid_roundtrip (l : Level) (p : V2) (c : Cell) :
    (l.WF → l.contains p → (l.set p c).get p = c) ∧
      (¬ l.contains p → l.set p c = l ∧ l.get p = EMPTY_CELL) := by
  constructor
  · intro hWF hp
    exact l.get_set_self p c hWF hp
  · intro hp
    constructor
    · unfold Level.set
      rw [if_neg hp]
    · unfold Level.get
      rw [if_neg hp]

/-- Witness for C5 at concrete inputs: the in-bounds round-trip on a fresh
2×2 grid at `(1,0)`, and the out-of-bounds no-op at `(5,0)`. -/
theorem c5_grid_roundtrip_witness :
    ((Level.new 2 2).set (V2.make 1 0)
        { letter := 'k', background := CellColor.White, foreground := CellColor.Black }).get
        (V2.make 1 0) =
      { letter := 'k', background := CellColor.White, foreground := CellColor.Black } ∧
    (Level.new 2 2).set (V2.make 5 0)
        { letter := 'k', background := CellColor.White, foreground := CellColor.Black } =
      Level.new 2 2 ∧
    (Level.new 2 2).get (V2.make 5 0) = EMPTY_CELL := by
  refine ⟨(c5_grid_roundtrip (Level.new 2 2) (V2.make 1 0) _).1 (by decide) (by decide), ?_, ?_⟩
  · exact ((c5_grid_roundtrip (Level.new 2 2) (V2.make 5 0) _).2 (by decide)).1
  · exact ((c5_grid_roundtrip (Level.new 2 2) (V2.make 5 0)
      { letter := 'k', background := CellColor.White, foreground := CellColor.Black }).2
      (by decide)).2

/-- `UiEventType` from `src/ui.rs`.  The Rust `Result` payload is a
`Box<dyn Any>`; the only payloads the game's runners ever produce and
consume are strings (`"exit1"`/`"exit2"`), so it is modelled as `String`. -/
inductive UiEventType where
  | Ok
  | Canceled
  | Result (value : String)
  | Changed
  | NoneEvent
  deriving DecidableEq, Repr

/-- `UiEvent` from `src/ui.rs`.  `UiId` is an opaque token used only for
equality; it is modelled as `Nat`. -/
structure UiEvent where
  id : Nat
  e : UiEventType
  deriving DecidableEq, Repr

/-- `UiWidget::event` from `src/ui.rs`: tag an event payload with the
widget's own identity. -/
def mk_event (id : Nat) (e : UiEventType) : Option UiEvent :=
  some { id := id, e := e }

/-- `is_base_color` from `src/game.rs`. -/
def is_base_color (c : CellColor) : Prop :=
  c = CellColor.Black ∨ c = CellColor.White

instance (c : CellColor) : Decidable (is_base_color c) := by
  unfold is_base_color; infer_instance

/-- `LevelRunner` from `src/game.rs` (the puzzle simulation widget). -/
structure LevelRunner where
  level : Level
  backup_level : Level
  pos : V2
  view_corner : V2
  need_refresh : Bool
  id : Nat
  deriving DecidableEq, Repr

namespace LevelRunner

/-- `LevelRunner::start`: reset the actor to the recorded start point and
snapshot the grid for restart. -/
def start (s : LevelRunner) : LevelRunner :=
  { s with pos := s.level.p0, backup_level := s.level }

/-- `LevelRunner::restart`: restore the grid from the snapshot, then `start`. -/
def restart (s : LevelRunner) : LevelRunner :=
  ({ s with level := s.backup_level }).start

/-- The padding constant local to `LevelRunner::keep_cursor_in_view`. -/
def PADDING : Int := 5

/-- `LevelRunner::keep_cursor_in_view` from `src/game.rs`.  `size` stands
for the external `buffer_size()` terminal query.  The four `if`s mirror the
source: each runs against the view rectangle computed on entry, later
assignments to a corner coordinate overwrite earlier ones, and the returned
flag records whether any of them fired. -/
def keep_cursor_in_view (size : V2) (s : LevelRunner) : LevelRunner × Bool :=
  let view := (Rectangle.mk s.view_corner size).grow (-PADDING)
  if view.contains s.pos then (s, false)
  else
    let pos := s.pos
    let cornerx := if pos.x < view.left then pos.x - PADDING else s.view_corner.x
    let cornerx := if pos.x > view.right then pos.x + PADDING - size.x else cornerx
    let cornery := if pos.y < view.top then pos.y - PADDING else s.view_corner.y
    let cornery := if pos.y > view.bottom then pos.y + PADDING - size.y else cornery
    let moved := pos.x < view.left ∨ pos.x > view.right ∨
      pos.y < view.top ∨ pos.y > view.bottom
    ({ s with view_corner := { x := cornerx, y := cornery } }, decide moved)

/-- `LevelRunner::walk` from `src/game.rs`, translated branch by branch.
The Rust early returns become an `if`/`else` cascade; the two push branches
keep their guards (`is_base_color` of the target's foreground and the
in-bounds check on the cell beyond the target), and when neither fires,
control falls through to the "light gray is walkable" check exactly as in
the source. -/
def walk (s : LevelRunner) (dir : V2) : LevelRunner :=
  let target := s.pos + dir
  let bounds := s.level.bounds
  if ¬ bounds.contains target then s
  else
    let here := s.level.get s.pos
    let target_cell := s.level.get target
    let next_cell := s.level.get (target + dir)
    if target_cell.background = here.background then
      if target_cell.empty then { s with pos := target }
      else if is_base_color target_cell.foreground ∧ bounds.contains (target + dir) ∧
          next_cell.background = target_cell.background ∧ next_cell.empty then
        let next2 := { next_cell with letter := target_cell.letter }
        let target2 := { target_cell with letter := ' ' }
        { s with
          level := (s.level.set target target2).set (target + dir) next2,
          pos := target }
      else if is_base_color target_cell.foreground ∧ bounds.contains (target + dir) ∧
          next_cell.background ≠ target_cell.background ∧
          next_cell.letter = target_cell.letter then
        let next2 := { next_cell with letter := ' ' }
        let target2 := { target_cell with letter := ' ' }
        { s with
          level := (s.level.set target target2).set (target + dir) next2,
          pos := target }
      else if target_cell.foreground = CellColor.LightGray then
        { s with pos := target }
      else s
    else
      if is_base_color here.background ∧ is_base_color target_cell.background ∧
          target_cell.letter = '@' then
        let target2 := { target_cell with letter := ' ' }
        let here2 := { here with letter := '@' }
        { s with
          level := (s.level.set s.pos here2).set target target2,
          pos := target }
      else s

/-- `LevelRunner::get_trigger_here`: the first trigger of the level's list
whose position matches. -/
def get_trigger_here (s : LevelRunner) (pos : V2) : Option Trigger :=
  s.level.triggers.find? (fun t => t.pos = pos)

/-- The tail of `LevelRunner::update` after the trigger check: run the
viewport follow and bubble `Changed` when it moved. -/
def update_tail (size : V2) (s : LevelRunner) : LevelRunner × Option UiEvent :=
  let r := s.keep_cursor_in_view size
  if r.2 then
    let s2 := { r.1 with need_refresh := true }
    (s2, mk_event s2.id UiEventType.Changed)
  else (r.1, none)

/-- `LevelRunner::update` from `src/game.rs`: a trigger named `exit0` at
the actor's position bubbles `Ok`, `exit1`/`exit2` bubble a `Result`
carrying the identifier, any other identifier falls through to the
viewport-follow check. -/
def update (size : V2) (s : LevelRunner) : LevelRunner × Option UiEvent :=
  match s.get_trigger_here s.pos with
  | some trigger =>
    if trigger.id = "exit0" then (s, mk_event s.id UiEventType.Ok)
    else if trigger.id = "exit1" ∨ trigger.id = "exit2" then
      (s, mk_event s.id (UiEventType.Result trigger.id))
    else s.update_tail size
  | none => s.update_tail size

end LevelRunner

/-- `Level::bounds` containment agrees with `Level::contains`. -/
theorem Level.bounds_contains (l : Level) (p : V2) :
    l.bounds.contains p ↔ l.contains p := by
  simp only [Level.bounds, Rectangle.contains, Rectangle.left, Rectangle.right,
    Rectangle.top, Rectangle.bottom, Level.size, V2.make, Level.contains]
  omega

/-- Writing a cell whose colors agree with the cell currently stored at the
written position changes no cell's colors anywhere. -/
theorem Level.set_preserves_colors (l : Level) (p : V2) (c : Cell)
    (hb : c.background = (l.get p).background)
    (hf : c.foreground = (l.get p).foreground) (q : V2) :
    ((l.set p c).get q).background = (l.get q).background ∧
      ((l.set p c).get q).foreground = (l.get q).foreground := by
  by_cases hpq : p = q
  · subst hpq
    rcases l.get_set_self_cases p c with h | h
    · rw [h]; exact ⟨hb, hf⟩
    · rw [h]; exact ⟨rfl, rfl⟩
  · rw [l.get_set_other p q c hpq]
    exact ⟨rfl, rfl⟩

/-- Frame fact for the two-cell letter rewrites performed by `walk`: a pair
of `set`s that only change the `letter` of the cells read at the written
positions preserves every cell's colors and all non-matrix fields. -/
theorem Level.pair_set_frame (l : Level) (a b : V2) (ca cb : Char) :
    ((l.set a { l.get a with letter := ca }).set b
        { l.get b with letter := cb }).width = l.width ∧
    ((l.set a { l.get a with letter := ca }).set b
        { l.get b with letter := cb }).height = l.height ∧
    ((l.set a { l.get a with letter := ca }).set b
        { l.get b with letter := cb }).p0 = l.p0 ∧
    ((l.set a { l.get a with letter := ca }).set b
        { l.get b with letter := cb }).triggers = l.triggers ∧
    ∀ q : V2,
      (((l.set a { l.get a with letter := ca }).set b
          { l.get b with letter := cb }).get q).background = (l.get q).background ∧
      (((l.set a { l.get a with letter := ca }).set b
          { l.get b with letter := cb }).get q).foreground = (l.get q).foreground := by
  have h1 := l.set_preserves_colors a { l.get a with letter := ca } rfl rfl
  have hb : ({ l.get b with letter := cb } : Cell).background =
      ((l.set a { l.get a with letter := ca }).get b).background := by
    rw [(h1 b).1]
  have hf : ({ l.get b with letter := cb } : Cell).foreground =
      ((l.set a { l.get a with letter := ca }).get b).foreground := by
    rw [(h1 b).2]
  have h2 := (l.set a { l.get a with letter := ca }).set_preserves_colors b
    { l.get b with letter := cb } hb hf
  refine ⟨?_, ?_, ?_, ?_, fun q => ⟨?_, ?_⟩⟩
  · rw [Level.set_width, Level.set_width]
  · rw [Level.set_height, Level.set_height]
  · rw [Level.set_p0, Level.set_p0]
  · rw [Level.set_triggers, Level.set_triggers]
  · rw [(h2 q).1, (h1 q).1]
  · rw [(h2 q).2, (h1 q).2]

/-- C10: implicit frame property of `LevelRunner::walk` (`src/game.rs`):
for every state and direction, `walk` only ever rewrites the `letter` field
of grid cells — every cell's background and foreground color, the trigger
list, the level dimensions, and the recorded start point come out
unchanged. -/
theorem c10_walk_frame (s : LevelRunner) (dir : V2) :
    (s.walk dir).level.width = s.level.width ∧
    (s.walk dir).level.height = s.level.height ∧
    (s.walk dir).level.p0 = s.level.p0 ∧
    (s.walk dir).level.triggers = s.level.triggers ∧
    ∀ q : V2,
      ((s.walk dir).level.get q).background = (s.level.get q).background ∧
      ((s.walk dir).level.get q).foreground = (s.level.get q).foreground := by
  simp only [LevelRunner.walk]
  split_ifs
  all_goals
    first
      | exact ⟨rfl, rfl, rfl, rfl, fun q => ⟨rfl, rfl⟩⟩
      | exact Level.pair_set_frame ..

/-- C9: push blocked at the grid edge (`LevelRunner::walk`, `src/game.rs`).
With the actor at an in-bounds position, a non-empty base-foreground glyph
at the in-bounds target sharing the actor's background, and the cell beyond
the target out of the grid bounds, `walk` is a complete no-op: the actor
stays put and the whole state (in particular every grid cell) is unchanged. -/
theorem c9_push_blocked_at_edge (s : LevelRunner) (d : V2)
    (hA : s.level.contains s.pos)
    (hT : s.level.contains (s.pos + d))
    (hNE : ¬ (s.level.get (s.pos + d)).empty)
    (hFg : is_base_color (s.level.get (s.pos + d)).foreground)
    (hBg : (s.level.get (s.pos + d)).background = (s.level.get s.pos).background)
    (hOut : ¬ s.level.contains (s.pos + d + d)) :
    s.walk d = s := by
  have hb : s.level.bounds.contains (s.pos + d) := (s.level.bounds_contains _).mpr hT
  have hnb : ¬ s.level.bounds.contains (s.pos + d + d) :=
    fun h => hOut ((s.level.bounds_contains _).mp h)
  simp only [LevelRunner.walk]
  rw [if_neg (not_not_intro hb)]
  rw [if_pos hBg]
  rw [if_neg hNE]
  rw [if_neg (fun h => hnb h.2.1)]
  rw [if_neg (fun h => hnb h.2.1)]
  rw [if_neg ?hlg]
  case hlg =>
    intro hlg
    rcases hFg with h | h <;> rw [h] at hlg <;> exact absurd hlg (by decide)

/-- Witness for C9: a 2×1 grid whose pushable glyph sits on the edge; the
walk leaves the state untouched. -/
theorem c9_push_blocked_at_edge_witness :
    ({ level :=
        { width := 2, height := 1, p0 := V2.make 0 0, triggers := [],
          data := [[{ letter := Char.ofNat 0, background := CellColor.Black,
                      foreground := CellColor.White },
                    { letter := 'B', background := CellColor.Black,
                      foreground := CellColor.White }]] },
       backup_level := Level.new 2 1,
       pos := V2.make 0 0, view_corner := V2.make 0 0,
       need_refresh := true, id := 1 } : LevelRunner).walk (V2.make 1 0) =
    { level :=
        { width := 2, height := 1, p0 := V2.make 0 0, triggers := [],
          data := [[{ letter := Char.ofNat 0, background := CellColor.Black,
                      foreground := CellColor.White },
                    { letter := 'B', background := CellColor.Black,
                      foreground := CellColor.White }]] },
      backup_level := Level.new 2 1,
      pos := V2.make 0 0, view_corner := V2.make 0 0,
      need_refresh := true, id := 1 } :=
  c9_push_blocked_at_edge _ (V2.make 1 0) (by decide) (by decide) (by decide)
    (by decide) (by decide) (by decide)

/-- Concrete 3×1 level used for C1's counterexample: the actor's cell has a
black background, the pushable-looking glyph at `(1,0)` sits on a *white*
background (base foreground, non-empty), and `(2,0)` is empty with the same
white background.  Every condition named by the claim holds, yet the push
does not fire because the target does not share the actor's background. -/
def c1CounterLevel : Level :=
  { width := 3, height := 1, p0 := V2.make 0 0, triggers := [],
    data := [[{ letter := Char.ofNat 0, background := CellColor.Black,
                foreground := CellColor.White },
              { letter := 'B', background := CellColor.White,
                foreground := CellColor.Black },
              { letter := Char.ofNat 0, background := CellColor.White,
                foreground := CellColor.White }]] }

/-- The runner for C1's counterexample, with the actor at `(0,0)`. -/
def c1CounterRunner : LevelRunner :=
  { level := c1CounterLevel, backup_level := c1CounterLevel,
    pos := V2.make 0 0, view_corner := V2.make 0 0,
    need_refresh := true, id := 1 }

/-- Counterexample to C1 as stated: all the claim's hypotheses hold at this
concrete input — actor inside the grid, a non-empty base-foreground glyph
at `A+d`, an in-grid empty cell at `A+2d` sharing the background of `A+d` —
but `walk(d)` moves nothing: the actor is not at `A+d` afterwards.  (The
claim omits that `A+d` must also share the *actor's* background.) -/
theorem c1_counterexample :
    c1CounterRunner.level.contains c1CounterRunner.pos ∧
    ¬ (c1CounterRunner.level.get (c1CounterRunner.pos + V2.make 1 0)).empty ∧
    is_base_color
      (c1CounterRunner.level.get (c1CounterRunner.pos + V2.make 1 0)).foreground ∧
    c1CounterRunner.level.contains
      (c1CounterRunner.pos + V2.make 1 0 + V2.make 1 0) ∧
    (c1CounterRunner.level.get
      (c1CounterRunner.pos + V2.make 1 0 + V2.make 1 0)).empty ∧
    (c1CounterRunner.level.get
        (c1CounterRunner.pos + V2.make 1 0 + V2.make 1 0)).background =
      (c1CounterRunner.level.get (c1CounterRunner.pos + V2.make 1 0)).background ∧
    (c1CounterRunner.walk (V2.make 1 0)).pos ≠
      c1CounterRunner.pos + V2.make 1 0 := by
  decide

/-- C1 (amended): push resolution, with the additional hypothesis forced by
the counterexample — the target cell shares the actor's current background
(`walk`'s outer guard, `src/game.rs` line 984).  For a well-formed grid
with the actor in bounds, a non-empty base-foreground glyph at the in-bounds
`A+d` sharing the actor's background, and an in-bounds empty cell at `A+2d`
sharing the background of `A+d`, `walk(d)` moves the actor to `A+d`, leaves
`A+d` empty, and moves the glyph's letter to `A+2d`. -/
theorem c1_push_resolution_amended (s : LevelRunner) (d : V2)
    (hWF : s.level.WF)
    (hA : s.level.contains s.pos)
    (hT : s.level.contains (s.pos + d))
    (hBg : (s.level.get (s.pos + d)).background = (s.level.get s.pos).background)
    (hNE : ¬ (s.level.get (s.pos + d)).empty)
    (hFg : is_base_color (s.level.get (s.pos + d)).foreground)
    (hN : s.level.contains (s.pos + d + d))
    (hNbg : (s.level.get (s.pos + d + d)).background =
      (s.level.get (s.pos + d)).background)
    (hNempty : (s.level.get (s.pos + d + d)).empty) :
    (s.walk d).pos = s.pos + d ∧
    ((s.walk d).level.get (s.pos + d)).empty ∧
    ((s.walk d).level.get (s.pos + d + d)).letter =
      (s.level.get (s.pos + d)).letter := by
  have hb : s.level.bounds.contains (s.pos + d) := (s.level.bounds_contains _).mpr hT
  have hnb : s.level.bounds.contains (s.pos + d + d) := (s.level.bounds_contains _).mpr hN
  have hne : (s.pos + d) ≠ (s.pos + d + d) := by
    intro h
    exact hNE (by rw [h]; exact hNempty)
  simp only [LevelRunner.walk]
  rw [if_neg (not_not_intro hb)]
  rw [if_pos hBg]
  rw [if_neg hNE]
  rw [if_pos ⟨hFg, hnb, hNbg, hNempty⟩]
  refine ⟨rfl, ?_, ?_⟩
  · rw [Level.get_set_other _ _ _ _ hne.symm]
    rw [Level.get_set_self _ _ _ hWF hT]
    exact Or.inr rfl
  · rw [Level.get_set_self _ _ _ (Level.WF.set hWF _ _)
      (((s.level.contains_set (s.pos + d) (s.pos + d + d) _)).mpr hN)]

/-- Concrete 3×1 level for C1's amended witness: same shape as the
counterexample but with all three backgrounds black, so the push fires. -/
def c1PushLevel : Level :=
  { width := 3, height := 1, p0 := V2.make 0 0, triggers := [],
    data := [[{ letter := Char.ofNat 0, background := CellColor.Black,
                foreground := CellColor.White },
              { letter := 'B', background := CellColor.Black,
                foreground := CellColor.White },
              { letter := Char.ofNat 0, background := CellColor.Black,
                foreground := CellColor.White }]] }

/-- The runner for C1's amended witness. -/
def c1PushRunner : LevelRunner :=
  { level := c1PushLevel, backup_level := c1PushLevel,
    pos := V2.make 0 0, view_corner := V2.make 0 0,
    need_refresh := true, id := 1 }

/-- Witness for the amended C1: on the concrete 3×1 level the push moves
the actor to `(1,0)`, empties `(1,0)` and carries the letter `B` to `(2,0)`. -/
theorem c1_push_resolution_amended_witness :
    (c1PushRunner.walk (V2.make 1 0)).pos = c1PushRunner.pos + V2.make 1 0 ∧
    ((c1PushRunner.walk (V2.make 1 0)).level.get
      (c1PushRunner.pos + V2.make 1 0)).empty ∧
    ((c1PushRunner.walk (V2.make 1 0)).level.get
        (c1PushRunner.pos + V2.make 1 0 + V2.make 1 0)).letter =
      (c1PushRunner.level.get (c1PushRunner.pos + V2.make 1 0)).letter :=
  c1_push_resolution_amended c1PushRunner (V2.make 1 0) (by decide) (by decide)
    (by decide) (by decide) (by decide) (by decide) (by decide) (by decide) (by decide)

/-- Concrete 2×1 level for C3: the actor's cell is black-backed, the target
holds the actor-capable token `@` on a white background. -/
def c3SwapLevel : Level :=
  { width := 2, height := 1, p0 := V2.make 0 0, triggers := [],
    data := [[{ letter := Char.ofNat 0, background := CellColor.Black,
                foreground := CellColor.White },
              { letter := '@', background := CellColor.White,
                foreground := CellColor.Black }]] }

/-- The runner for C3's counterexample and witness. -/
def c3SwapRunner : LevelRunner :=
  { level := c3SwapLevel, backup_level := c3SwapLevel,
    pos := V2.make 0 0, view_corner := V2.make 0 0,
    need_refresh := true, id := 1 }

/-- Counterexample to C3 as stated: at this concrete input all the claim's
hypotheses hold (different base-colored backgrounds, in-bounds target
carrying `@`), but the claim's conclusion — actor glyph transplanted *to the
target* and cleared *from the source* — is false: `walk` writes `@` into the
source cell and blanks the target cell (`src/game.rs` lines 1021–1029). -/
theorem c3_counterexample :
    c3SwapRunner.level.contains (c3SwapRunner.pos + V2.make 1 0) ∧
    (c3SwapRunner.level.get (c3SwapRunner.pos + V2.make 1 0)).background ≠
      (c3SwapRunner.level.get c3SwapRunner.pos).background ∧
    is_base_color (c3SwapRunner.level.get c3SwapRunner.pos).background ∧
    is_base_color (c3SwapRunner.level.get (c3SwapRunner.pos + V2.make 1 0)).background ∧
    (c3SwapRunner.level.get (c3SwapRunner.pos + V2.make 1 0)).letter = '@' ∧
    ¬ (((c3SwapRunner.walk (V2.make 1 0)).level.get
          (c3SwapRunner.pos + V2.make 1 0)).letter = '@' ∧
       ((c3SwapRunner.walk (V2.make 1 0)).level.get c3SwapRunner.pos).empty ∧
       (c3SwapRunner.walk (V2.make 1 0)).pos = c3SwapRunner.pos + V2.make 1 0) := by
  decide

/-- C3 (amended): the swap rule with source and target corrected to match
the code.  When the backgrounds differ, both are base colors and the
in-bounds target carries `@`, `walk` writes the `@` token into the actor's
*source* cell, blanks the *target* cell, and moves the actor onto the
target; no background match is required. -/
theorem c3_swap_amended (s : LevelRunner) (d : V2)
    (hWF : s.level.WF)
    (hA : s.level.contains s.pos)
    (hT : s.level.contains (s.pos + d))
    (hBg : (s.level.get (s.pos + d)).background ≠ (s.level.get s.pos).background)
    (hHereBase : is_base_color (s.level.get s.pos).background)
    (hTargetBase : is_base_color (s.level.get (s.pos + d)).background)
    (hAt : (s.level.get (s.pos + d)).letter = '@') :
    (s.walk d).pos = s.pos + d ∧
    ((s.walk d).level.get s.pos).letter = '@' ∧
    ((s.walk d).level.get (s.pos + d)).letter = ' ' := by
  have hb : s.level.bounds.contains (s.pos + d) := (s.level.bounds_contains _).mpr hT
  have hne : s.pos ≠ s.pos + d := by
    intro h
    exact hBg (by rw [← h])
  simp only [LevelRunner.walk]
  rw [if_neg (not_not_intro hb)]
  rw [if_neg hBg]
  rw [if_pos ⟨hHereBase, hTargetBase, hAt⟩]
  refine ⟨rfl, ?_, ?_⟩
  · rw [Level.get_set_other _ _ _ _ hne.symm]
    rw [Level.get_set_self _ _ _ hWF hA]
  · rw [Level.get_set_self _ _ _ (Level.WF.set hWF _ _)
      ((s.level.contains_set s.pos (s.pos + d) _).mpr hT)]

/-- Witness for the amended C3 at the concrete 2×1 swap level. -/
theorem c3_swap_amended_witness :
    (c3SwapRunner.walk (V2.make 1 0)).pos = c3SwapRunner.pos + V2.make 1 0 ∧
    ((c3SwapRunner.walk (V2.make 1 0)).level.get c3SwapRunner.pos).letter = '@' ∧
    ((c3SwapRunner.walk (V2.make 1 0)).level.get
      (c3SwapRunner.pos + V2.make 1 0)).letter = ' ' :=
  c3_swap_amended c3SwapRunner (V2.make 1 0) (by decide) (by decide) (by decide)
    (by decide) (by decide) (by decide) (by decide)

set_option maxHeartbeats 1600000 in
/-- Full characterization of `LevelRunner::keep_cursor_in_view` when the
terminal is larger than twice the margin on each axis; the actor position
is untouched, on each axis the corner is shifted only when the actor lies
outside the margin band, and afterwards the actor satisfies
`corner + PADDING ≤ pos ≤ corner + size - PADDING` (one cell *beyond* the
band's right/bottom edge `corner + size - PADDING - 1` is possible). -/
theorem keep_cursor_in_view_spec (s : LevelRunner) (sz : V2)
    (hx : 2 * LevelRunner.PADDING < sz.x) (hy : 2 * LevelRunner.PADDING < sz.y) :
    (s.keep_cursor_in_view sz).1.pos = s.pos ∧
    (s.keep_cursor_in_view sz).1.view_corner.x + LevelRunner.PADDING ≤ s.pos.x ∧
    s.pos.x ≤ (s.keep_cursor_in_view sz).1.view_corner.x + sz.x - LevelRunner.PADDING ∧
    (s.keep_cursor_in_view sz).1.view_corner.y + LevelRunner.PADDING ≤ s.pos.y ∧
    s.pos.y ≤ (s.keep_cursor_in_view sz).1.view_corner.y + sz.y - LevelRunner.PADDING ∧
    (s.pos.x < s.view_corner.x + LevelRunner.PADDING →
      (s.keep_cursor_in_view sz).1.view_corner.x = s.pos.x - LevelRunner.PADDING) ∧
    (s.pos.x > s.view_corner.x + sz.x - LevelRunner.PADDING - 1 →
      (s.keep_cursor_in_view sz).1.view_corner.x = s.pos.x + LevelRunner.PADDING - sz.x) ∧
    (s.view_corner.x + LevelRunner.PADDING ≤ s.pos.x ∧
        s.pos.x ≤ s.view_corner.x + sz.x - LevelRunner.PADDING - 1 →
      (s.keep_cursor_in_view sz).1.view_corner.x = s.view_corner.x) ∧
    (s.pos.y < s.view_corner.y + LevelRunner.PADDING →
      (s.keep_cursor_in_view sz).1.view_corner.y = s.pos.y - LevelRunner.PADDING) ∧
    (s.pos.y > s.view_corner.y + sz.y - LevelRunner.PADDING - 1 →
      (s.keep_cursor_in_view sz).1.view_corner.y = s.pos.y + LevelRunner.PADDING - sz.y) ∧
    (s.view_corner.y + LevelRunner.PADDING ≤ s.pos.y ∧
        s.pos.y ≤ s.view_corner.y + sz.y - LevelRunner.PADDING - 1 →
      (s.keep_cursor_in_view sz).1.view_corner.y = s.view_corner.y) := by
  obtain ⟨lvl, bl, ⟨px, py⟩, ⟨cx, cy⟩, nr, idv⟩ := s
  obtain ⟨sx, sy⟩ := sz
  simp only [LevelRunner.PADDING] at hx hy
  simp only [LevelRunner.keep_cursor_in_view, LevelRunner.PADDING, Rectangle.grow,
    Rectangle.contains, Rectangle.left, Rectangle.right, Rectangle.top,
    Rectangle.bottom, V2.add_def, V2.sub_def, V2.make]
  split_ifs <;>
    refine ⟨rfl, ?_, ?_, ?_, ?_, ?_, ?_, ?_, ?_, ?_, ?_⟩ <;> intros <;> dsimp only <;> omega

/-- The 76×11 level of C2's counterexample; the start point sits one cell
left of where a rightward step crosses the viewport's margin band. -/
def c2CounterLevel : Level :=
  { width := 76, height := 11, p0 := V2.make 74 10, triggers := [],
    data := List.replicate 11 (List.replicate 76 Cell.make_empty) }

/-- C2's counterexample runner: exactly the state `start` produces for
`c2CounterLevel` (actor on the start point), with the viewport at the
origin and an 80×24 terminal. -/
def c2CounterRunner : LevelRunner :=
  { level := c2CounterLevel, backup_level := c2CounterLevel,
    pos := V2.make 74 10, view_corner := V2.make 0 0,
    need_refresh := true, id := 1 }

/-- Counterexample to C2 as stated: from the (reachable, in-bounds) start
state, one `walk` to the right followed by `keep_cursor_in_view` on an
80×24 terminal leaves the actor at `(75,10)` — still inside the grid — but
*outside* the viewport rectangle shrunk by the safety margin: the corner
update `pos.x + PADDING - size.x` falls one cell short
(`src/game.rs` line 960). -/
theorem c2_counterexample :
    c2CounterRunner.level.contains c2CounterRunner.pos ∧
    c2CounterRunner.pos = c2CounterRunner.level.p0 ∧
    (c2CounterRunner.walk (V2.make 1 0)).pos = V2.make 75 10 ∧
    c2CounterRunner.level.contains (c2CounterRunner.walk (V2.make 1 0)).pos ∧
    ¬ ((Rectangle.mk
          (((c2CounterRunner.walk (V2.make 1 0)).keep_cursor_in_view
            (V2.make 80 24)).1.view_corner)
          (V2.make 80 24)).grow (-LevelRunner.PADDING)).contains
        (((c2CounterRunner.walk (V2.make 1 0)).keep_cursor_in_view
          (V2.make 80 24)).1.pos) := by
  decide

/-- C2 (amended): after `walk` followed by `keep_cursor_in_view` on a
terminal larger than twice the margin per axis, the actor lies within the
viewport shrunk by the margin on the left/top but possibly exactly one cell
beyond the shrunk rectangle's right/bottom edge
(`corner + PADDING ≤ pos ≤ corner + size - PADDING`); on each axis the
corner moves only when the actor had left the margin band, to
`pos - PADDING` (left/top violations) or `pos + PADDING - size`
(right/bottom violations), independently per axis. -/
theorem c2_viewport_follow_amended (s : LevelRunner) (d sz : V2)
    (hx : 2 * LevelRunner.PADDING < sz.x) (hy : 2 * LevelRunner.PADDING < sz.y) :
    ((s.walk d).keep_cursor_in_view sz).1.pos = (s.walk d).pos ∧
    ((s.walk d).keep_cursor_in_view sz).1.view_corner.x + LevelRunner.PADDING ≤
      (s.walk d).pos.x ∧
    (s.walk d).pos.x ≤
      ((s.walk d).keep_cursor_in_view sz).1.view_corner.x + sz.x - LevelRunner.PADDING ∧
    ((s.walk d).keep_cursor_in_view sz).1.view_corner.y + LevelRunner.PADDING ≤
      (s.walk d).pos.y ∧
    (s.walk d).pos.y ≤
      ((s.walk d).keep_cursor_in_view sz).1.view_corner.y + sz.y - LevelRunner.PADDING ∧
    ((s.walk d).pos.x < (s.walk d).view_corner.x + LevelRunner.PADDING →
      ((s.walk d).keep_cursor_in_view sz).1.view_corner.x =
        (s.walk d).pos.x - LevelRunner.PADDING) ∧
    ((s.walk d).pos.x > (s.walk d).view_corner.x + sz.x - LevelRunner.PADDING - 1 →
      ((s.walk d).keep_cursor_in_view sz).1.view_corner.x =
        (s.walk d).pos.x + LevelRunner.PADDING - sz.x) ∧
    ((s.walk d).view_corner.x + LevelRunner.PADDING ≤ (s.walk d).pos.x ∧
        (s.walk d).pos.x ≤ (s.walk d).view_corner.x + sz.x - LevelRunner.PADDING - 1 →
      ((s.walk d).keep_cursor_in_view sz).1.view_corner.x = (s.walk d).view_corner.x) ∧
    ((s.walk d).pos.y < (s.walk d).view_corner.y + LevelRunner.PADDING →
      ((s.walk d).keep_cursor_in_view sz).1.view_corner.y =
        (s.walk d).pos.y - LevelRunner.PADDING) ∧
    ((s.walk d).pos.y > (s.walk d).view_corner.y + sz.y - LevelRunner.PADDING - 1 →
      ((s.walk d).keep_cursor_in_view sz).1.view_corner.y =
        (s.walk d).pos.y + LevelRunner.PADDING - sz.y) ∧
    ((s.walk d).view_corner.y + LevelRunner.PADDING ≤ (s.walk d).pos.y ∧
        (s.walk d).pos.y ≤ (s.walk d).view_corner.y + sz.y - LevelRunner.PADDING - 1 →
      ((s.walk d).keep_cursor_in_view sz).1.view_corner.y = (s.walk d).view_corner.y) :=
  keep_cursor_in_view_spec (s.walk d) sz hx hy

/-- The trivial 1×1 runner used by C2's amended witness. -/
def c2WitnessRunner : LevelRunner :=
  { level := Level.new 1 1, backup_level := Level.new 1 1,
    pos := V2.make 0 0, view_corner := V2.make 0 0,
    need_refresh := true, id := 1 }

/-- Witness for the amended C2 at a concrete input (zero step on a 1×1
grid, 80×24 terminal): the follow step pulls the corner to `(-5,-5)` and
all the amended bounds hold. -/
theorem c2_viewport_follow_amended_witness :
    ((c2WitnessRunner.walk (V2.make 0 0)).keep_cursor_in_view (V2.make 80 24)).1.pos =
      (c2WitnessRunner.walk (V2.make 0 0)).pos ∧
    ((c2WitnessRunner.walk (V2.make 0 0)).keep_cursor_in_view
        (V2.make 80 24)).1.view_corner.x + LevelRunner.PADDING ≤
      (c2WitnessRunner.walk (V2.make 0 0)).pos.x ∧
    (c2WitnessRunner.walk (V2.make 0 0)).pos.x ≤
      ((c2WitnessRunner.walk (V2.make 0 0)).keep_cursor_in_view
        (V2.make 80 24)).1.view_corner.x + 80 - LevelRunner.PADDING ∧
    ((c2WitnessRunner.walk (V2.make 0 0)).keep_cursor_in_view
        (V2.make 80 24)).1.view_corner.y + LevelRunner.PADDING ≤
      (c2WitnessRunner.walk (V2.make 0 0)).pos.y ∧
    (c2WitnessRunner.walk (V2.make 0 0)).pos.y ≤
      ((c2WitnessRunner.walk (V2.make 0 0)).keep_cursor_in_view
        (V2.make 80 24)).1.view_corner.y + 24 - LevelRunner.PADDING := by
  have h := c2_viewport_follow_amended c2WitnessRunner (V2.make 0 0) (V2.make 80 24)
    (by decide) (by decide)
  exact ⟨h.1, h.2.1, h.2.2.1, h.2.2.2.1, h.2.2.2.2.1⟩

/-- The viewport follow never changes the runner's identity. -/
theorem keep_cursor_in_view_id (s : LevelRunner) (sz : V2) :
    (s.keep_cursor_in_view sz).1.id = s.id := by
  simp only [LevelRunner.keep_cursor_in_view]
  split_ifs <;> rfl

/-- The 10×10 level of C4's counterexample: *two* triggers sit at `(6,6)`,
an unreserved one first and the terminal `exit0` second. -/
def c4CounterLevel : Level :=
  { width := 10, height := 10, p0 := V2.make 2 2,
    triggers := [{ pos := V2.make 6 6, id := "foo" },
                 { pos := V2.make 6 6, id := "exit0" }],
    data := List.replicate 10 (List.replicate 10 Cell.make_empty) }

/-- C4's counterexample runner, with the actor on the double trigger. -/
def c4CounterRunner : LevelRunner :=
  { level := c4CounterLevel, backup_level := c4CounterLevel,
    pos := V2.make 6 6, view_corner := V2.make 0 0,
    need_refresh := true, id := 3 }

/-- Counterexample to C4 as stated: a trigger with the reserved terminal
identifier `exit0` *exists* at the actor's position, yet `update()` does
not return the `Ok` event — `get_trigger_here` finds only the *first*
trigger at the position (`Iterator::find`, `src/game.rs` line 1041), and
that one carries an unreserved identifier, so the update falls through to
the viewport check.  (The spec itself allows duplicate triggers at one
position, §3.) -/
theorem c4_counterexample :
    ({ pos := V2.make 6 6, id := "exit0" } : Trigger) ∈
      c4CounterRunner.level.triggers ∧
    c4CounterRunner.pos = V2.make 6 6 ∧
    (c4CounterRunner.update (V2.make 80 24)).2 ≠
      some { id := c4CounterRunner.id, e := UiEventType.Ok } := by
  decide

/-- C4 (amended): trigger semantics of `LevelRunner::update`
(`src/game.rs` lines 1105–1123) in terms of the *first* trigger found at
the actor's position.  If it carries the reserved terminal identifier
`exit0`, `update` returns `Ok` tagged with the runner's own identity; if it
carries a branch identifier `exit1`/`exit2`, `update` returns a `Result`
carrying that identifier; and when no trigger is at the actor's position,
`update` returns neither `Ok` nor `Result` (only `Changed` or nothing). -/
theorem c4_update_trigger_amended (s : LevelRunner) (sz : V2) :
    (∀ t : Trigger, s.get_trigger_here s.pos = some t →
      (t.id = "exit0" →
        (s.update sz).2 = some { id := s.id, e := UiEventType.Ok }) ∧
      (t.id = "exit1" ∨ t.id = "exit2" →
        (s.update sz).2 = some { id := s.id, e := UiEventType.Result t.id })) ∧
    (s.get_trigger_here s.pos = none →
      (s.update sz).2 = none ∨
        (s.update sz).2 = some { id := s.id, e := UiEventType.Changed }) := by
  have htail : (s.update_tail sz).2 = none ∨
      (s.update_tail sz).2 = some { id := s.id, e := UiEventType.Changed } := by
    simp only [LevelRunner.update_tail]
    cases hb : (s.keep_cursor_in_view sz).2 with
    | false => simp [hb]
    | true =>
      simp only [hb, if_pos]
      right
      simp [mk_event, keep_cursor_in_view_id]
  constructor
  · intro t ht
    constructor
    · intro hid
      simp only [LevelRunner.update, ht, hid]
      rfl
    · intro hid
      simp only [LevelRunner.update, ht]
      rcases hid with h | h <;> rw [h] <;> simp [mk_event]
  · intro hnone
    simp only [LevelRunner.update, hnone]
    exact htail

/-- The runner for C4's amended witness: a single terminal trigger at the
actor's position. -/
def c4WitnessRunner : LevelRunner :=
  { level :=
      { width := 10, height := 10, p0 := V2.make 2 2,
        triggers := [{ pos := V2.make 6 6, id := "exit0" }],
        data := List.replicate 10 (List.replicate 10 Cell.make_empty) },
    backup_level := Level.new 10 10,
    pos := V2.make 6 6, view_corner := V2.make 0 0,
    need_refresh := true, id := 3 }

/-- Witness for the amended C4: with the single `exit0` trigger under the
actor, `update` returns the identity-tagged `Ok` event. -/
theorem c4_update_trigger_amended_witness :
    (c4WitnessRunner.update (V2.make 80 24)).2 =
      some { id := c4WitnessRunner.id, e := UiEventType.Ok } :=
  ((c4_update_trigger_amended c4WitnessRunner (V2.make 80 24)).1
    { pos := V2.make 6 6, id := "exit0" } (by decide)).1 rfl

/-- Modelled from the spec: `LevelList` is declared in the repository's
`level.rs` but that declaration is absent from the provided sources (only
its callers in `main.rs`/`game.rs` appear).  Per §6 it is "a level list
file (sequence of level paths)", and the callers use exactly a `files`
vector of path strings. -/
structure LevelList where
  files : List String
  deriving DecidableEq, Repr

/-- `MultiLevelRunner` from `src/game.rs` (the sequencer). -/
structure MultiLevelRunner where
  id : Nat
  levels : LevelList
  current_level : Nat
  level_runner : LevelRunner
  can_exit : Int
  need_refresh : Bool
  message : String
  deriving DecidableEq, Repr

namespace MultiLevelRunner

/-- `MultiLevelRunner::running`. -/
def running (s : MultiLevelRunner) : Prop :=
  s.current_level < s.levels.files.length

instance (s : MultiLevelRunner) : Decidable s.running := by
  unfold running; infer_instance

/-- `MultiLevelRunner::start_next_level` from `src/game.rs`.  File I/O is
an external boundary: `load` stands for opening-and-parsing a level file,
returning `none` on failure (in which case the source falls into the
branch that sets the fallback failure message and forces the sequence to
its end). -/
def start_next_level (load : String → Option Level) (s : MultiLevelRunner) :
    MultiLevelRunner :=
  match s.levels.files.get? s.current_level with
  | some path =>
    match load path with
    | some lvl =>
      { s with level_runner := ({ s.level_runner with level := lvl }).start }
    | none =>
      let s1 := if s.message = "" then { s with message := "Failed to load level" } else s
      { s1 with current_level := s1.levels.files.length }
  | none => { s with message := "Thank you for playing the game" }

/-- `MultiLevelRunner::handle_level_runner_events` from `src/game.rs`:
identity-matched `Ok`/`Canceled`/`Result` from the embedded runner advance
the index and load the next level; unmatched or other events only request a
redraw; no event stays no event. -/
def handle_level_runner_events (load : String → Option Level)
    (s : MultiLevelRunner) (ev : Option UiEvent) :
    MultiLevelRunner × Option UiEvent :=
  match ev with
  | some { id := i, e := UiEventType.Ok } =>
    if i = s.level_runner.id then
      let s1 := ({ s with current_level := s.current_level + 1 }).start_next_level load
      (s1, mk_event s1.id UiEventType.Changed)
    else (s, mk_event s.id UiEventType.Changed)
  | some { id := i, e := UiEventType.Canceled } =>
    if i = s.level_runner.id then
      let s1 := ({ s with current_level := s.current_level + 1 }).start_next_level load
      (s1, mk_event s1.id UiEventType.Changed)
    else (s, mk_event s.id UiEventType.Changed)
  | some { id := i, e := UiEventType.Result _ } =>
    if i = s.level_runner.id then
      let s1 := ({ s with current_level := s.current_level + 1 }).start_next_level load
      (s1, mk_event s1.id UiEventType.Changed)
    else (s, mk_event s.id UiEventType.Changed)
  | none => (s, none)
  | some _ => (s, mk_event s.id UiEventType.Changed)

/-- The state effect of `MultiLevelRunner::print` (`src/game.rs` lines
1210–1222): once the sequence is exhausted and a message is pending, the
message is displayed, `can_exit` is set to `1`, and — crucially — the
message is cleared. -/
def print_state (s : MultiLevelRunner) : MultiLevelRunner :=
  if s.running then s
  else if s.message ≠ "" then { s with can_exit := 1, message := "" }
  else s

/-- The state effect of `MultiLevelRunner::input` on a plain keypress once
the sequence is exhausted (`src/game.rs` lines 1229–1233):
`can_exit = max(1, can_exit)`. -/
def input_key_state (s : MultiLevelRunner) : MultiLevelRunner :=
  if s.running then s
  else { s with can_exit := max 1 s.can_exit }

/-- `MultiLevelRunner::update` from `src/game.rs` (lines 1263–1275): while
running, delegate to the embedded runner and route its events; afterwards,
return the terminal `Ok` when `can_exit == 2` *or the message is empty*,
and otherwise step `can_exit` from 1 to 2. -/
def update (load : String → Option Level) (size : V2) (s : MultiLevelRunner) :
    MultiLevelRunner × Option UiEvent :=
  if s.running then
    let r := s.level_runner.update size
    handle_level_runner_events load { s with level_runner := r.1 } r.2
  else
    if s.can_exit = 2 ∨ s.message = "" then (s, mk_event s.id UiEventType.Ok)
    else if s.can_exit = 1 then ({ s with can_exit := 2 }, none)
    else (s, none)

end MultiLevelRunner

/-- The sequencer state the moment the last level was completed: the index
has advanced past the single-entry list and `start_next_level` has just
set the completion message; no key has been pressed since. -/
def c6SeqRunner : MultiLevelRunner :=
  { id := 9, levels := { files := ["levels/l1"] }, current_level := 1,
    level_runner :=
      { level := Level.new 10 10, backup_level := Level.new 10 10,
        pos := V2.make 2 2, view_corner := V2.make 0 0,
        need_refresh := true, id := 8 },
    can_exit := 0, need_refresh := true,
    message := "Thank you for playing the game" }

/-- C6: the completion gate does not hold on the code.  From the state in
which the completion message is pending and no keypress has occurred, the
render pass (`print`) clears the message and sets `can_exit = 1`; the very
next `update()` then takes the `message.is_empty()` disjunct of the exit
check and emits the terminal `Ok` immediately — with zero keypresses
received after the message was shown.  (The `can_exit` 1→2 double-frame
machinery and the keypress handler are dead code on this path.) -/
theorem c6_completion_gate_bug :
    c6SeqRunner.message ≠ "" ∧
    ¬ c6SeqRunner.running ∧
    c6SeqRunner.can_exit = 0 ∧
    c6SeqRunner.print_state.can_exit = 1 ∧
    (MultiLevelRunner.update (fun _ => none) (V2.make 80 24)
        c6SeqRunner.print_state).2 =
      some { id := 9, e := UiEventType.Ok } := by
  decide

/-- `EditorMode` from `src/game.rs`. -/
inductive EditorMode where
  | View
  | WriteText
  | ErrorMessage
  | Paint
  | SetMarkers
  | Play
  deriving DecidableEq, Repr

/-- `PaintMode` from `src/game.rs`. -/
inductive PaintMode where
  | BlackBackgroundNormal
  | WhiteBackgroundNormal
  | Invert
  | TextLightGray
  | TextDarkGray
  | BackgroundGray
  | BackgroundDarkGray
  deriving DecidableEq, Repr

/-- `LevelEditor` from `src/game.rs` (the editor widget; the save `path` is
external-filesystem state and not part of the modelled behavior). -/
structure LevelEditor where
  id : Nat
  level : Level
  cursor_pos : V2
  view_corner : V2
  wrap_pos : V2
  need_refresh : Bool
  mode : EditorMode
  paintMode : PaintMode
  test_runer : LevelRunner
  show_triggers : Bool
  selection_rect : Rectangle
  selecting_rect : Bool
  deriving DecidableEq, Repr

namespace LevelEditor

/-- `LevelEditor::keep_cursor_in_view` from `src/game.rs` (editor variant,
`PADDING = 2`, no return value); `size` stands for the `buffer_size()`
query. -/
def keep_cursor_in_view (size : V2) (e : LevelEditor) : LevelEditor :=
  let view := (Rectangle.mk e.view_corner size).grow (-2)
  if view.contains e.cursor_pos then e
  else
    let pos := e.cursor_pos
    let cornerx := if pos.x < view.left then pos.x - 2 else e.view_corner.x
    let cornerx := if pos.x > view.right then pos.x + 2 - size.x else cornerx
    let cornery := if pos.y < view.top then pos.y - 2 else e.view_corner.y
    let cornery := if pos.y > view.bottom then pos.y + 2 - size.y else cornery
    { e with view_corner := { x := cornerx, y := cornery } }

/-- The arrow-key cursor movement of `LevelEditor::input`
(`src/game.rs` lines 538–557): shift the cursor by one cell, without any
clamping, then follow with the viewport. -/
def move_cursor (d : V2) (size : V2) (e : LevelEditor) : LevelEditor :=
  ({ e with cursor_pos := e.cursor_pos + d }).keep_cursor_in_view size

/-- The `SetMarkers` start-point placement (`'z'`, `src/game.rs` lines
768–771): store the raw cursor position as the level's start point. -/
def set_start_here (e : LevelEditor) : LevelEditor :=
  { e with level := { e.level with p0 := e.cursor_pos } }

/-- The `SetMarkers` trigger removal (`Backspace`, `src/game.rs` lines
773–777): drop every trigger at the cursor position. -/
def remove_triggers_here (e : LevelEditor) : LevelEditor :=
  { e with level :=
      { e.level with
        triggers := e.level.triggers.filter (fun t => t.pos != e.cursor_pos) } }

/-- The `SetMarkers` trigger placement (`'x'`/`'c'`/`'v'`, `src/game.rs`
lines 779–802): replace any trigger at the cursor by one tagged `tid`
(`"exit1"`, `"exit2"` or `"exit0"` respectively), at the raw cursor
position. -/
def place_trigger (tid : String) (e : LevelEditor) : LevelEditor :=
  { e with level :=
      { e.level with
        triggers := e.level.triggers.filter (fun t => t.pos != e.cursor_pos) ++
          [{ pos := e.cursor_pos, id := tid }] } }

/-- `Vec::resize` on a list: truncate or pad with copies of `v`. -/
def vec_resize {α : Type} (xs : List α) (n : Nat) (v : α) : List α :=
  xs.take n ++ List.replicate (n - xs.length) v

/-- `LevelEditor::resize` from `src/game.rs` (lines 153–164): sizes below
5 in either axis are refused; otherwise the cell matrix is resized
row-and-column-wise with empty cells, and `width`/`height` are updated —
`p0` and `triggers` are left untouched. -/
def resize (size : V2) (e : LevelEditor) : LevelEditor :=
  if size.x < 5 ∨ size.y < 5 then e
  else
    let cell := Cell.make_empty
    let data := vec_resize e.level.data size.y.toNat
      (List.replicate size.x.toNat cell)
    let data := data.map (fun line => vec_resize line size.x.toNat cell)
    { e with level :=
        { e.level with data := data, width := size.x, height := size.y } }

end LevelEditor

/-- A 10×10 editor state in `SetMarkers` mode with the cursor at the
origin, as produced by loading a 10×10 level and pressing `F6`. -/
def c7Editor : LevelEditor :=
  { id := 2, level := Level.new 10 10,
    cursor_pos := V2.make 0 0, view_corner := V2.make 0 0,
    wrap_pos := V2.make 0 0, need_refresh := true,
    mode := EditorMode.SetMarkers,
    paintMode := PaintMode.WhiteBackgroundNormal,
    test_runer :=
      { level := Level.new 10 10, backup_level := Level.new 10 10,
        pos := V2.make 2 2, view_corner := V2.make 0 0,
        need_refresh := true, id := 1 },
    show_triggers := true,
    selection_rect := { pos := V2.make 0 0, size := V2.make 1 1 },
    selecting_rect := false }

/-- Counterexample to C7: editor states violating the stored-coordinate
invariant are reachable.  One left-arrow from the origin (cursor movement
is unclamped) followed by the `SetMarkers` start-point key stores
`p0 = (-1,0)`, which lies outside `[0,width) × [0,height)`; the same holds
for a trigger placed there. -/
theorem c7_counterexample :
    ((c7Editor.move_cursor (V2.make (-1) 0) (V2.make 80 24)).set_start_here).level.p0 =
      V2.make (-1) 0 ∧
    ¬ (((c7Editor.move_cursor (V2.make (-1) 0)
          (V2.make 80 24)).set_start_here).level.contains
        ((c7Editor.move_cursor (V2.make (-1) 0)
          (V2.make 80 24)).set_start_here).level.p0) ∧
    (∃ t ∈ ((c7Editor.move_cursor (V2.make (-1) 0)
        (V2.make 80 24)).place_trigger "exit0").level.triggers,
      ¬ ((c7Editor.move_cursor (V2.make (-1) 0)
          (V2.make 80 24)).place_trigger "exit0").level.contains t.pos) := by
  decide

/-- C7 (amended): the editor does *not* maintain the stored-coordinate
invariant.  Start-point placement stores the raw (unclamped) cursor
position, trigger placement stores a trigger at the raw cursor position,
and `resize` rewrites only the matrix and the dimensions, leaving `p0` and
every stored trigger position unchanged even when they fall outside the new
bounds; stored coordinates may therefore lie outside
`[0,width) × [0,height)`. -/
theorem c7_editor_coords_amended (e : LevelEditor) (tid : String) (sz : V2) :
    e.set_start_here.level.p0 = e.cursor_pos ∧
    (e.place_trigger tid).level.triggers =
      e.level.triggers.filter (fun t => t.pos != e.cursor_pos) ++
        [{ pos := e.cursor_pos, id := tid }] ∧
    (e.resize sz).level.p0 = e.level.p0 ∧
    (e.resize sz).level.triggers = e.level.triggers := by
  refine ⟨rfl, rfl, ?_, ?_⟩ <;>
    · unfold LevelEditor.resize
      split <;> rfl
